import Mathlib

/-!
Verification development for the StackHub frontend form layer.

The repository is a client-side web application with four form pages
(token launchpad, NFT marketplace, staking vault, service registry).
Each page holds per-field string values, per-field error strings, and
per-action in-flight flags in component state; submit handlers
re-validate the fields and, when all validators pass, invoke one
external asynchronous contract-call action.

This file shallowly embeds that layer:
* field validators are pure functions `String → Bool × String`
  returning the pass flag together with the error string the source
  writes into the field error state (the empty string on pass);
* each page state is a structure of the `useState` variables;
* each submit handler is a function from the page state and the
  settlement outcome of the external action (resolve or reject) to the
  new page state together with `Option` of the external call made,
  `none` when validation aborts before the call;
* the disabled expression of each submit trigger is embedded as a
  Boolean predicate on the page state.

The JavaScript platform functions used by the source
(`parseInt(s, 10)`, `parseFloat`, `String.prototype.trim`,
`String.prototype.startsWith`, regular-expression tests over the fixed
character classes used here) are modelled below over lists of
characters; `NaN` is modelled by `Option.none`. Exponent forms in
`parseFloat` and non-ASCII whitespace are not modelled: no input
analysed here uses them. Numbers are modelled exactly (`Int`, and the
exact decimal type `DecNum` below for `parseFloat` results) rather
than by IEEE doubles; every concrete value appearing in this
development is small enough that the double arithmetic of the source
is exact on it.
-/

/-- Exact model of the decimal values produced by `parseFloat` on this
application's inputs: the value `mant / 10 ^ scale`. -/
structure DecNum where
  mant : Int
  scale : Nat
deriving DecidableEq

/-- Value comparison `a ≤ b` of two `DecNum`, by cross multiplication. -/
def DecNum.le (a b : DecNum) : Bool :=
  decide (a.mant * 10 ^ b.scale ≤ b.mant * 10 ^ a.scale)

/-- Value comparison `a < b` of two `DecNum`, by cross multiplication. -/
def DecNum.lt (a b : DecNum) : Bool :=
  decide (a.mant * 10 ^ b.scale < b.mant * 10 ^ a.scale)

/-- Negation of a `DecNum`. -/
def DecNum.neg (a : DecNum) : DecNum :=
  ⟨-a.mant, a.scale⟩

/-- Product of a `DecNum` with an integer (used for the display-unit
to microSTX conversion factor 1000000). -/
def DecNum.mulInt (a : DecNum) (n : Int) : DecNum :=
  ⟨a.mant * n, a.scale⟩

/-- Value of a list of decimal digit characters, most significant first. -/
def digitsVal (ds : List Char) : Nat :=
  ds.foldl (fun a c => 10 * a + (c.toNat - 48)) 0

/-- Modelled platform function: JavaScript `parseInt(s, 10)`.
Skips leading whitespace, reads an optional sign and then the longest
run of decimal digits, ignoring the rest of the string; `none` models
`NaN` (no digits found). -/
def jsParseInt (s : String) : Option Int :=
  let core : List Char → Option Nat := fun l =>
    let ds := l.takeWhile Char.isDigit
    if ds.isEmpty then none else some (digitsVal ds)
  match s.data.dropWhile Char.isWhitespace with
  | '-' :: rest => (core rest).map (fun n => -(n : Int))
  | '+' :: rest => (core rest).map (fun n => (n : Int))
  | cs => (core cs).map (fun n => (n : Int))

/-- Unsigned part of `jsParseFloat`: digits, an optional point, digits. -/
def jsParseFloatCore (cs : List Char) : Option DecNum :=
  let intDs := cs.takeWhile Char.isDigit
  let rest := cs.dropWhile Char.isDigit
  let fracDs : List Char :=
    match rest with
    | '.' :: r => r.takeWhile Char.isDigit
    | _ => []
  if intDs.isEmpty && fracDs.isEmpty then none
  else some ⟨(digitsVal intDs * 10 ^ fracDs.length + digitsVal fracDs : Nat), fracDs.length⟩

/-- Modelled platform function: JavaScript `parseFloat` on the decimal
forms used by this application (sign, digits, optional fractional
part); `none` models `NaN`. -/
def jsParseFloat (s : String) : Option DecNum :=
  match s.data.dropWhile Char.isWhitespace with
  | '-' :: rest => (jsParseFloatCore rest).map DecNum.neg
  | '+' :: rest => jsParseFloatCore rest
  | cs => jsParseFloatCore cs

/-- Modelled platform function: JavaScript `String.prototype.trim`
(ASCII whitespace). -/
def jsTrim (s : String) : String :=
  ⟨((s.data.dropWhile Char.isWhitespace).reverse.dropWhile Char.isWhitespace).reverse⟩

/-- Modelled platform function: JavaScript `String.prototype.startsWith`. -/
def jsStartsWith (s pre : String) : Bool :=
  pre.data.isPrefixOf s.data

/-- Character class of the regular expression used by the token name
validator: ASCII letters, digits, and whitespace. -/
def nameCharOk (c : Char) : Bool :=
  c.isAlphanum || c.isWhitespace

/-- Test of the full-string regular expression for token names
(one or more letters, digits, or whitespace characters). -/
def nameRegexTest (s : String) : Bool :=
  !s.data.isEmpty && s.data.all nameCharOk

/-- Test of the full-string regular expression for token symbols
(one or more uppercase ASCII letters). -/
def symbolRegexTest (s : String) : Bool :=
  !s.data.isEmpty && s.data.all (fun c => 'A' ≤ c && c ≤ 'Z')

/-- JavaScript `Number.MAX_SAFE_INTEGER`. -/
def maxSafeInteger : Int := 9007199254740991

/-- Settlement outcome of the external asynchronous action: its promise
either resolves or rejects. -/
inductive Settle where
  | resolve
  | reject
deriving DecidableEq

namespace Launchpad

/-- The `useState` variables of the token launchpad page
(`frontend/src/app/launchpad/page.tsx`). -/
structure State where
  name : String
  nameError : String
  symbol : String
  symbolError : String
  decimals : String
  decimalsError : String
  supply : String
  supplyError : String
  isLoading : Bool
deriving DecidableEq

/-- `validateName` from the launchpad page: required on the trimmed
value, then 2 to 32 characters on the raw value, then the
alphanumeric-plus-whitespace pattern on the raw value. Returns the pass
flag with the string stored into `nameError`. The copy of this
function in the second launchpad page variant of the source is
line-for-line identical. -/
def validateName (value : String) : Bool × String :=
  if jsTrim value = "" then (false, "Token name is required")
  else if value.length < 2 || 32 < value.length then (false, "Token name must be 2-32 characters")
  else if !nameRegexTest value then (false, "Token name must be alphanumeric")
  else (true, "")

/-- `validateSymbol` from the launchpad page. -/
def validateSymbol (value : String) : Bool × String :=
  if jsTrim value = "" then (false, "Symbol is required")
  else if value.length < 2 || 5 < value.length then (false, "Symbol must be 2-5 characters")
  else if !symbolRegexTest value then (false, "Symbol must be uppercase letters only")
  else (true, "")

/-- `validateDecimals` from the launchpad page: parses first, with a
single message covering both the unparsable and the out-of-range case;
there is no required check. -/
def validateDecimals (value : String) : Bool × String :=
  match jsParseInt value with
  | none => (false, "Decimals must be between 0 and 18")
  | some num =>
    if num < 0 || 18 < num then (false, "Decimals must be between 0 and 18")
    else (true, "")

/-- `validateSupply` from the launchpad page. -/
def validateSupply (value : String) : Bool × String :=
  if jsTrim value = "" then (false, "Supply is required")
  else
    match jsParseInt value with
    | none => (false, "Supply must be a positive integer")
    | some num =>
      if num ≤ 0 then (false, "Supply must be a positive integer")
      else if maxSafeInteger < num then (false, "Supply exceeds maximum safe value")
      else (true, "")

/-- Argument tuple of the external `createToken` action. -/
structure CreateCall where
  name : String
  symbol : String
  decimals : Int
  totalSupply : Int
deriving DecidableEq

/-- `handleCreate` from the launchpad page. The source validates the
four fields with short-circuiting disjunction (a later validator runs
only when every earlier one passed, and each validator that runs
stores its error string), and on full success sets `isLoading`,
computes `totalSupply = parseInt(supply) * Math.pow(10, parseInt(decimals))`,
awaits `createToken`, clears the fields only on resolution, and clears
`isLoading` in a `finally` block on either settlement. The returned
option is the call made to the external action, `none` when validation
aborted the submission. -/
def handleCreate (s : State) (o : Settle) : State × Option CreateCall :=
  let s1 := { s with nameError := (validateName s.name).2 }
  if (validateName s.name).1 then
    let s2 := { s1 with symbolError := (validateSymbol s.symbol).2 }
    if (validateSymbol s.symbol).1 then
      let s3 := { s2 with decimalsError := (validateDecimals s.decimals).2 }
      if (validateDecimals s.decimals).1 then
        let s4 := { s3 with supplyError := (validateSupply s.supply).2 }
        if (validateSupply s.supply).1 then
          let d : Int := (jsParseInt s.decimals).getD 0
          let call : CreateCall :=
            { name := s.name
              symbol := s.symbol
              decimals := d
              totalSupply := (jsParseInt s.supply).getD 0 * 10 ^ d.toNat }
          match o with
          | .resolve =>
            ({ s4 with name := "", symbol := "", decimals := "6", supply := "",
                       isLoading := false }, some call)
          | .reject => ({ s4 with isLoading := false }, some call)
        else (s4, none)
      else (s3, none)
    else (s2, none)
  else (s1, none)

/-- The `onChange` handler of the token name input: stores the value
and nothing else. -/
def setNameValue (s : State) (v : String) : State :=
  { s with name := v }

/-- The `onBlur` handler of the token name input: runs `validateName`
on the current value, which stores its error string. -/
def blurName (s : State) : State :=
  { s with nameError := (validateName s.name).2 }

/-- The `disabled` expression of the create-token submit button. -/
def createButtonDisabled (s : State) : Bool :=
  s.isLoading || !(s.nameError == "") || !(s.symbolError == "")
    || !(s.decimalsError == "") || !(s.supplyError == "")
    || s.name == "" || s.symbol == "" || s.supply == ""

end Launchpad

namespace Marketplace

/-- The `useState` variables of the NFT marketplace page. -/
structure State where
  mintUri : String
  mintUriError : String
  listTokenId : String
  listTokenIdError : String
  listPrice : String
  listPriceError : String
  buyTokenId : String
  buyTokenIdError : String
deriving DecidableEq

/-- `validateUri` from the marketplace page. -/
def validateUri (uri : String) : Bool × String :=
  if jsTrim uri = "" then (false, "URI is required")
  else if 256 < uri.length then (false, "URI must be 256 characters or less")
  else if !(jsStartsWith uri "ipfs://" || jsStartsWith uri "http://"
      || jsStartsWith uri "https://") then
    (false, "URI must start with ipfs://, http://, or https://")
  else (true, "")

/-- The pure validation rule of `validateTokenId` from the marketplace
page: required on the trimmed value, then a parse plus non-negativity
check with one shared message. In the source the same rule body is
used for both the list field and the buy field, differing only in
which error state variable it writes; the handlers below write the
returned string into the matching field. -/
def validateTokenId (id : String) : Bool × String :=
  if jsTrim id = "" then (false, "Token ID is required")
  else
    match jsParseInt id with
    | none => (false, "Token ID must be a non-negative integer")
    | some num =>
      if num < 0 then (false, "Token ID must be a non-negative integer")
      else (true, "")

/-- `validatePrice` from the marketplace page: `parseFloat`, positive,
and at least 0.001 STX. -/
def validatePrice (price : String) : Bool × String :=
  if jsTrim price = "" then (false, "Price is required")
  else
    match jsParseFloat price with
    | none => (false, "Price must be a positive number")
    | some num =>
      if num.le ⟨0, 0⟩ then (false, "Price must be a positive number")
      else if num.lt ⟨1, 3⟩ then (false, "Minimum price is 0.001 STX")
      else (true, "")

/-- Argument tuple of the external `listNFT` action. -/
structure ListCall where
  tokenId : Int
  priceMicroStx : Int
deriving DecidableEq

/-- `handleMint` from the marketplace page: validate the URI, then
await `mintNFT(mintUri)` with no in-flight flag and no `finally`; the
field is cleared only on resolution. -/
def handleMint (s : State) (o : Settle) : State × Option String :=
  let s1 := { s with mintUriError := (validateUri s.mintUri).2 }
  if (validateUri s.mintUri).1 then
    match o with
    | .resolve => ({ s1 with mintUri := "" }, some s.mintUri)
    | .reject => (s1, some s.mintUri)
  else (s1, none)

/-- `handleList` from the marketplace page. The source validates the
token ID and the price with short-circuiting disjunction (the price
validator does not run when the token ID fails), then awaits
`listNFT(parseInt(listTokenId), parseInt(listPrice) * 1000000)` with
no in-flight flag and no `finally`; the fields are cleared only on
resolution. Note that the price is converted with `parseInt`, not
`parseFloat`. -/
def handleList (s : State) (o : Settle) : State × Option ListCall :=
  let s1 := { s with listTokenIdError := (validateTokenId s.listTokenId).2 }
  if (validateTokenId s.listTokenId).1 then
    let s2 := { s1 with listPriceError := (validatePrice s.listPrice).2 }
    if (validatePrice s.listPrice).1 then
      let call : ListCall :=
        { tokenId := (jsParseInt s.listTokenId).getD 0
          priceMicroStx := (jsParseInt s.listPrice).getD 0 * 1000000 }
      match o with
      | .resolve => ({ s2 with listTokenId := "", listPrice := "" }, some call)
      | .reject => (s2, some call)
    else (s2, none)
  else (s1, none)

/-- `handleBuy` from the marketplace page. -/
def handleBuy (s : State) (o : Settle) : State × Option Int :=
  let s1 := { s with buyTokenIdError := (validateTokenId s.buyTokenId).2 }
  if (validateTokenId s.buyTokenId).1 then
    match o with
    | .resolve => ({ s1 with buyTokenId := "" }, some ((jsParseInt s.buyTokenId).getD 0))
    | .reject => (s1, some ((jsParseInt s.buyTokenId).getD 0))
  else (s1, none)

/-- The `disabled` expression of the mint submit button. -/
def mintButtonDisabled (s : State) : Bool :=
  !(s.mintUriError == "") || s.mintUri == ""

/-- The list-NFT submit button of the marketplace page carries no
`disabled` attribute in the source, so its disabled predicate is
constantly false. -/
def listButtonDisabled (_ : State) : Bool := false

/-- The buy-NFT submit button of the marketplace page carries no
`disabled` attribute in the source, so its disabled predicate is
constantly false. -/
def buyButtonDisabled (_ : State) : Bool := false

end Marketplace

namespace Staking

/-- The `useState` variables of the staking vault page. -/
structure State where
  stakeAmount : String
  stakeAmountError : String
  unstakeAmount : String
  unstakeAmountError : String
  isStaking : Bool
  isUnstaking : Bool
deriving DecidableEq

/-- `validateStakeAmount` from the staking page. -/
def validateStakeAmount (amount : String) : Bool × String :=
  if jsTrim amount = "" then (false, "Amount is required")
  else
    match jsParseFloat amount with
    | none => (false, "Amount must be a positive number")
    | some num =>
      if num.le ⟨0, 0⟩ then (false, "Amount must be a positive number")
      else if num.lt ⟨1, 0⟩ then (false, "Minimum stake is 1 STX")
      else (true, "")

/-- `validateUnstakeAmount` from the staking page. -/
def validateUnstakeAmount (amount : String) : Bool × String :=
  if jsTrim amount = "" then (false, "Amount is required")
  else
    match jsParseFloat amount with
    | none => (false, "Amount must be a positive number")
    | some num =>
      if num.le ⟨0, 0⟩ then (false, "Amount must be a positive number")
      else if num.lt ⟨1, 0⟩ then (false, "Minimum unstake is 1 STX")
      else (true, "")

/-- `handleStake` from the staking page: validate, set `isStaking`,
await `stakeSTX(parseFloat(stakeAmount) * 1000000)`, clear the field
only on resolution, and clear `isStaking` in a `finally` block on
either settlement. -/
def handleStake (s : State) (o : Settle) : State × Option DecNum :=
  let s1 := { s with stakeAmountError := (validateStakeAmount s.stakeAmount).2 }
  if (validateStakeAmount s.stakeAmount).1 then
    let amount : DecNum := ((jsParseFloat s.stakeAmount).getD ⟨0, 0⟩).mulInt 1000000
    match o with
    | .resolve => ({ s1 with stakeAmount := "", isStaking := false }, some amount)
    | .reject => ({ s1 with isStaking := false }, some amount)
  else (s1, none)

/-- `handleUnstake` from the staking page, mirror of `handleStake`
with `requestUnstake` and `isUnstaking`. -/
def handleUnstake (s : State) (o : Settle) : State × Option DecNum :=
  let s1 := { s with unstakeAmountError := (validateUnstakeAmount s.unstakeAmount).2 }
  if (validateUnstakeAmount s.unstakeAmount).1 then
    let amount : DecNum := ((jsParseFloat s.unstakeAmount).getD ⟨0, 0⟩).mulInt 1000000
    match o with
    | .resolve => ({ s1 with unstakeAmount := "", isUnstaking := false }, some amount)
    | .reject => ({ s1 with isUnstaking := false }, some amount)
  else (s1, none)

/-- The `disabled` expression of the stake submit button. -/
def stakeButtonDisabled (s : State) : Bool :=
  s.isStaking || !(s.stakeAmountError == "") || s.stakeAmount == ""

/-- The `disabled` expression of the unstake submit button. -/
def unstakeButtonDisabled (s : State) : Bool :=
  s.isUnstaking || !(s.unstakeAmountError == "") || s.unstakeAmount == ""

end Staking

namespace Services

/-- The `useState` variables of the service registry page. -/
structure State where
  title : String
  titleError : String
  price : String
  priceError : String
  serviceId : String
  serviceIdError : String
  isRegistering : Bool
  isPaying : Bool
deriving DecidableEq

/-- `validateTitle` from the services page. -/
def validateTitle (value : String) : Bool × String :=
  if jsTrim value = "" then (false, "Service title is required")
  else if value.length < 3 || 64 < value.length then (false, "Title must be 3-64 characters")
  else (true, "")

/-- `validatePrice` from the services page: `parseFloat`, positive,
and at least 0.1 STX. -/
def validatePrice (value : String) : Bool × String :=
  if jsTrim value = "" then (false, "Price is required")
  else
    match jsParseFloat value with
    | none => (false, "Price must be a positive number")
    | some num =>
      if num.le ⟨0, 0⟩ then (false, "Price must be a positive number")
      else if num.lt ⟨1, 1⟩ then (false, "Minimum price is 0.1 STX")
      else (true, "")

/-- `validateServiceId` from the services page. -/
def validateServiceId (value : String) : Bool × String :=
  if jsTrim value = "" then (false, "Service ID is required")
  else
    match jsParseInt value with
    | none => (false, "Service ID must be a non-negative integer")
    | some num =>
      if num < 0 then (false, "Service ID must be a non-negative integer")
      else (true, "")

/-- Argument tuple of the external `registerService` action. -/
structure RegisterCall where
  title : String
  priceMicroStx : DecNum
deriving DecidableEq

/-- `handleRegister` from the services page: validate title then price
with short-circuiting disjunction, set `isRegistering`, await
`registerService(title, parseFloat(price) * 1000000)`, clear the
fields only on resolution, and clear `isRegistering` in a `finally`
block on either settlement. -/
def handleRegister (s : State) (o : Settle) : State × Option RegisterCall :=
  let s1 := { s with titleError := (validateTitle s.title).2 }
  if (validateTitle s.title).1 then
    let s2 := { s1 with priceError := (validatePrice s.price).2 }
    if (validatePrice s.price).1 then
      let call : RegisterCall :=
        { title := s.title
          priceMicroStx := ((jsParseFloat s.price).getD ⟨0, 0⟩).mulInt 1000000 }
      match o with
      | .resolve => ({ s2 with title := "", price := "", isRegistering := false }, some call)
      | .reject => ({ s2 with isRegistering := false }, some call)
    else (s2, none)
  else (s1, none)

/-- `handlePay` from the services page: validate the service ID, set
`isPaying`, await `payForService(parseInt(serviceId))`, clear the
field only on resolution, and clear `isPaying` in a `finally` block
on either settlement. -/
def handlePay (s : State) (o : Settle) : State × Option Int :=
  let s1 := { s with serviceIdError := (validateServiceId s.serviceId).2 }
  if (validateServiceId s.serviceId).1 then
    match o with
    | .resolve =>
      ({ s1 with serviceId := "", isPaying := false }, some ((jsParseInt s.serviceId).getD 0))
    | .reject => ({ s1 with isPaying := false }, some ((jsParseInt s.serviceId).getD 0))
  else (s1, none)

/-- The `disabled` expression of the register-service submit button. -/
def registerButtonDisabled (s : State) : Bool :=
  s.isRegistering || !(s.titleError == "") || !(s.priceError == "")
    || s.title == "" || s.price == ""

/-- The `disabled` expression of the pay-for-service submit button. -/
def payButtonDisabled (s : State) : Bool :=
  s.isPaying || !(s.serviceIdError == "") || s.serviceId == ""

end Services

/-! ## Concrete states used by the theorems below -/

/-- Launchpad state holding the token-creation scenario inputs of the
specification, with no stored errors and no submission in flight. -/
def exampleCreateState : Launchpad.State :=
  { name := "My Token", nameError := "", symbol := "MTK", symbolError := "",
    decimals := "6", decimalsError := "", supply := "1000000", supplyError := "",
    isLoading := false }

/-- The initial launchpad state: empty fields, decimals preset to `"6"`,
no errors, not loading. -/
def initialLaunchpadState : Launchpad.State :=
  { name := "", nameError := "", symbol := "", symbolError := "",
    decimals := "6", decimalsError := "", supply := "", supplyError := "",
    isLoading := false }

/-- Marketplace state with a stale stored token-ID error (left by an
earlier submit on an empty token ID, which sets exactly this message)
while both current field values are valid. -/
def staleErrorListState : Marketplace.State :=
  { mintUri := "", mintUriError := "", listTokenId := "1",
    listTokenIdError := "Token ID is required", listPrice := "2", listPriceError := "",
    buyTokenId := "", buyTokenIdError := "" }

/-- Marketplace state with valid listing fields and no errors: this is
also the state of the component while a first list submission is
pending, since `handleList` changes no state before its await point
beyond storing the empty error strings its validators return. -/
def pendingListState : Marketplace.State :=
  { mintUri := "", mintUriError := "", listTokenId := "1", listTokenIdError := "",
    listPrice := "2", listPriceError := "", buyTokenId := "", buyTokenIdError := "" }

/-- Marketplace state with a fractional listing price accepted by the
price validator. -/
def fractionalPriceListState : Marketplace.State :=
  { mintUri := "", mintUriError := "", listTokenId := "1", listTokenIdError := "",
    listPrice := "1.5", listPriceError := "", buyTokenId := "", buyTokenIdError := "" }

/-- Marketplace state of the listing scenario of the specification:
token ID `"-1"` and price `"0.0005"`, both invalid. -/
def doubleInvalidListState : Marketplace.State :=
  { mintUri := "", mintUriError := "", listTokenId := "-1", listTokenIdError := "",
    listPrice := "0.0005", listPriceError := "", buyTokenId := "", buyTokenIdError := "" }

/-- Marketplace state with a valid token ID and the below-minimum
price `"0.0005"`. -/
def priceOnlyInvalidListState : Marketplace.State :=
  { mintUri := "", mintUriError := "", listTokenId := "1", listTokenIdError := "",
    listPrice := "0.0005", listPriceError := "", buyTokenId := "", buyTokenIdError := "" }

/-- Staking state with valid stake and unstake amounts and no errors. -/
def exampleStakingState : Staking.State :=
  { stakeAmount := "100", stakeAmountError := "", unstakeAmount := "50",
    unstakeAmountError := "", isStaking := false, isUnstaking := false }

/-- Services state with a valid title, price, and service ID. -/
def exampleServicesState : Services.State :=
  { title := "Web Development", titleError := "", price := "100", priceError := "",
    serviceId := "1", serviceIdError := "", isRegistering := false, isPaying := false }

/-- Marketplace state in which every field is valid and no errors are
stored. -/
def validMarketState : Marketplace.State :=
  { mintUri := "ipfs://QmExample", mintUriError := "", listTokenId := "1",
    listTokenIdError := "", listPrice := "2", listPriceError := "",
    buyTokenId := "3", buyTokenIdError := "" }

/-! ## Helper lemmas

Structural facts about the handlers, shared by the claim theorems:
a handler invokes the external action only when every one of its
validators accepts the current value, and the handlers that track an
in-flight flag leave it false on either settlement of a call. -/

theorem Launchpad.handleCreate_calls_only_if_valid (s : Launchpad.State) (o : Settle) :
    (Launchpad.handleCreate s o).2.isSome = true →
      (Launchpad.validateName s.name).1 = true ∧ (Launchpad.validateSymbol s.symbol).1 = true ∧
      (Launchpad.validateDecimals s.decimals).1 = true ∧
      (Launchpad.validateSupply s.supply).1 = true := by
  intro h
  unfold Launchpad.handleCreate at h
  split at h
  · split at h
    · split at h
      · split at h
        · simp_all
        · simp at h
      · simp at h
    · simp at h
  · simp at h

theorem Launchpad.handleCreate_inflight_false (s : Launchpad.State) (o : Settle) :
    (Launchpad.handleCreate s o).2.isSome = true →
      ((Launchpad.handleCreate s o).1).isLoading = false := by
  unfold Launchpad.handleCreate
  split
  · split
    · split
      · split
        · cases o <;> simp
        · simp
      · simp
    · simp
  · simp

theorem Marketplace.handleMint_calls_only_if_valid (s : Marketplace.State) (o : Settle) :
    (Marketplace.handleMint s o).2.isSome = true →
      (Marketplace.validateUri s.mintUri).1 = true := by
  intro h
  unfold Marketplace.handleMint at h
  split at h
  · simp_all
  · simp at h

theorem Marketplace.handleList_calls_only_if_valid (s : Marketplace.State) (o : Settle) :
    (Marketplace.handleList s o).2.isSome = true →
      (Marketplace.validateTokenId s.listTokenId).1 = true ∧
      (Marketplace.validatePrice s.listPrice).1 = true := by
  intro h
  unfold Marketplace.handleList at h
  split at h
  · split at h
    · simp_all
    · simp at h
  · simp at h

theorem Marketplace.handleBuy_calls_only_if_valid (s : Marketplace.State) (o : Settle) :
    (Marketplace.handleBuy s o).2.isSome = true →
      (Marketplace.validateTokenId s.buyTokenId).1 = true := by
  intro h
  unfold Marketplace.handleBuy at h
  split at h
  · simp_all
  · simp at h

theorem Staking.handleStake_calls_only_if_valid (s : Staking.State) (o : Settle) :
    (Staking.handleStake s o).2.isSome = true →
      (Staking.validateStakeAmount s.stakeAmount).1 = true := by
  intro h
  unfold Staking.handleStake at h
  split at h
  · simp_all
  · simp at h

theorem Staking.handleStake_inflight_false (s : Staking.State) (o : Settle) :
    (Staking.handleStake s o).2.isSome = true →
      ((Staking.handleStake s o).1).isStaking = false := by
  unfold Staking.handleStake
  split
  · cases o <;> simp
  · simp

theorem Staking.handleUnstake_calls_only_if_valid (s : Staking.State) (o : Settle) :
    (Staking.handleUnstake s o).2.isSome = true →
      (Staking.validateUnstakeAmount s.unstakeAmount).1 = true := by
  intro h
  unfold Staking.handleUnstake at h
  split at h
  · simp_all
  · simp at h

theorem Staking.handleUnstake_inflight_false (s : Staking.State) (o : Settle) :
    (Staking.handleUnstake s o).2.isSome = true →
      ((Staking.handleUnstake s o).1).isUnstaking = false := by
  unfold Staking.handleUnstake
  split
  · cases o <;> simp
  · simp

theorem Services.handleRegister_calls_only_if_valid (s : Services.State) (o : Settle) :
    (Services.handleRegister s o).2.isSome = true →
      (Services.validateTitle s.title).1 = true ∧
      (Services.validatePrice s.price).1 = true := by
  intro h
  unfold Services.handleRegister at h
  split at h
  · split at h
    · simp_all
    · simp at h
  · simp at h

theorem Services.handleRegister_inflight_false (s : Services.State) (o : Settle) :
    (Services.handleRegister s o).2.isSome = true →
      ((Services.handleRegister s o).1).isRegistering = false := by
  unfold Services.handleRegister
  split
  · split
    · cases o <;> simp
    · simp
  · simp

theorem Services.handlePay_calls_only_if_valid (s : Services.State) (o : Settle) :
    (Services.handlePay s o).2.isSome = true →
      (Services.validateServiceId s.serviceId).1 = true := by
  intro h
  unfold Services.handlePay at h
  split at h
  · simp_all
  · simp at h

theorem Services.handlePay_inflight_false (s : Services.State) (o : Settle) :
    (Services.handlePay s o).2.isSome = true →
      ((Services.handlePay s o).1).isPaying = false := by
  unfold Services.handlePay
  split
  · cases o <;> simp
  · simp

/-! ## Claim theorems -/

/-- C1: for every submission handler that sets an in-flight flag
(launchpad create, stake, unstake, register service, pay for service),
once the external asynchronous action settles, whether it resolves or
rejects, the in-flight flag is false: the `finally`-style cleanup in
each of these handlers never leaves the flag true after settlement. -/
theorem C1_inflight_flag_false_after_settlement (sl : Launchpad.State) (st : Staking.State)
    (sv : Services.State) (o : Settle) :
    ((Launchpad.handleCreate sl o).2.isSome = true →
      ((Launchpad.handleCreate sl o).1).isLoading = false) ∧
    ((Staking.handleStake st o).2.isSome = true →
      ((Staking.handleStake st o).1).isStaking = false) ∧
    ((Staking.handleUnstake st o).2.isSome = true →
      ((Staking.handleUnstake st o).1).isUnstaking = false) ∧
    ((Services.handleRegister sv o).2.isSome = true →
      ((Services.handleRegister sv o).1).isRegistering = false) ∧
    ((Services.handlePay sv o).2.isSome = true →
      ((Services.handlePay sv o).1).isPaying = false) :=
  ⟨Launchpad.handleCreate_inflight_false sl o,
   Staking.handleStake_inflight_false st o,
   Staking.handleUnstake_inflight_false st o,
   Services.handleRegister_inflight_false sv o,
   Services.handlePay_inflight_false sv o⟩

/-- Witness for C1: at concrete valid states each of the five flagged
handlers invokes its external action, and after a rejected settlement
every in-flight flag is false. -/
theorem C1_witness :
    ((Launchpad.handleCreate exampleCreateState Settle.reject).1).isLoading = false ∧
    ((Staking.handleStake exampleStakingState Settle.reject).1).isStaking = false ∧
    ((Staking.handleUnstake exampleStakingState Settle.reject).1).isUnstaking = false ∧
    ((Services.handleRegister exampleServicesState Settle.reject).1).isRegistering = false ∧
    ((Services.handlePay exampleServicesState Settle.reject).1).isPaying = false := by
  have h := C1_inflight_flag_false_after_settlement exampleCreateState exampleStakingState
    exampleServicesState Settle.reject
  exact ⟨h.1 (by decide), h.2.1 (by decide), h.2.2.1 (by decide), h.2.2.2.1 (by decide),
    h.2.2.2.2 (by decide)⟩

/-- C2 counterexample: a reachable marketplace state in which the list
token-ID field holds a non-empty stored validation error while its
current value is valid; invoking the list submit handler from this
state does call the external action, so a non-empty error at the
moment of submit does not prevent the external call. -/
theorem C2_stale_error_does_not_block_submission :
    staleErrorListState.listTokenIdError ≠ "" ∧
    (Marketplace.handleList staleErrorListState Settle.resolve).2.isSome = true := by
  decide

/-- C2 amended: submission is gated by re-validating the current field
values, not by the stored error strings; each submit handler invokes
the external action only if every relevant field validator accepts the
current value of its field at the moment of submit. -/
theorem C2_submit_gated_by_revalidation (sl : Launchpad.State) (m : Marketplace.State)
    (st : Staking.State) (sv : Services.State) (o : Settle) :
    ((Launchpad.handleCreate sl o).2.isSome = true →
      (Launchpad.validateName sl.name).1 = true ∧
      (Launchpad.validateSymbol sl.symbol).1 = true ∧
      (Launchpad.validateDecimals sl.decimals).1 = true ∧
      (Launchpad.validateSupply sl.supply).1 = true) ∧
    ((Marketplace.handleMint m o).2.isSome = true →
      (Marketplace.validateUri m.mintUri).1 = true) ∧
    ((Marketplace.handleList m o).2.isSome = true →
      (Marketplace.validateTokenId m.listTokenId).1 = true ∧
      (Marketplace.validatePrice m.listPrice).1 = true) ∧
    ((Marketplace.handleBuy m o).2.isSome = true →
      (Marketplace.validateTokenId m.buyTokenId).1 = true) ∧
    ((Staking.handleStake st o).2.isSome = true →
      (Staking.validateStakeAmount st.stakeAmount).1 = true) ∧
    ((Staking.handleUnstake st o).2.isSome = true →
      (Staking.validateUnstakeAmount st.unstakeAmount).1 = true) ∧
    ((Services.handleRegister sv o).2.isSome = true →
      (Services.validateTitle sv.title).1 = true ∧
      (Services.validatePrice sv.price).1 = true) ∧
    ((Services.handlePay sv o).2.isSome = true →
      (Services.validateServiceId sv.serviceId).1 = true) :=
  ⟨Launchpad.handleCreate_calls_only_if_valid sl o,
   Marketplace.handleMint_calls_only_if_valid m o,
   Marketplace.handleList_calls_only_if_valid m o,
   Marketplace.handleBuy_calls_only_if_valid m o,
   Staking.handleStake_calls_only_if_valid st o,
   Staking.handleUnstake_calls_only_if_valid st o,
   Services.handleRegister_calls_only_if_valid sv o,
   Services.handlePay_calls_only_if_valid sv o⟩

/-- Witness for C2: at concrete states where every handler invokes its
external action, every relevant validator accepts the current value. -/
theorem C2_witness :
    (Launchpad.validateName exampleCreateState.name).1 = true ∧
    (Marketplace.validateUri validMarketState.mintUri).1 = true ∧
    (Marketplace.validateTokenId validMarketState.listTokenId).1 = true ∧
    (Marketplace.validateTokenId validMarketState.buyTokenId).1 = true ∧
    (Staking.validateStakeAmount exampleStakingState.stakeAmount).1 = true ∧
    (Staking.validateUnstakeAmount exampleStakingState.unstakeAmount).1 = true ∧
    (Services.validateTitle exampleServicesState.title).1 = true ∧
    (Services.validateServiceId exampleServicesState.serviceId).1 = true := by
  have h := C2_submit_gated_by_revalidation exampleCreateState validMarketState
    exampleStakingState exampleServicesState Settle.resolve
  exact ⟨(h.1 (by decide)).1, h.2.1 (by decide), (h.2.2.1 (by decide)).1,
    h.2.2.2.1 (by decide), h.2.2.2.2.1 (by decide), h.2.2.2.2.2.1 (by decide),
    (h.2.2.2.2.2.2.1 (by decide)).1, h.2.2.2.2.2.2.2 (by decide)⟩

/-- C3 counterexample: the list-NFT submit trigger is not disabled in
the state a pending list submission leaves on screen, and invoking the
list submit handler again from that state calls the external action a
second time. -/
theorem C3_list_submit_not_blocked_while_pending :
    Marketplace.listButtonDisabled pendingListState = false ∧
    (Marketplace.handleList pendingListState Settle.resolve).2.isSome = true := by
  decide

/-- C3 amended: the five submit actions that track an in-flight flag
(launchpad create, stake, unstake, register service, pay for service)
have their triggering control disabled whenever the flag is true, so a
second submit attempt during their Submitting state is prevented; the
marketplace mint, list, and buy actions track no in-flight flag, and
the list and buy triggers carry no disabled attribute at all, so
re-entrant submission of those actions is not prevented. -/
theorem C3_inflight_trigger_disabled_only_for_flagged_actions (sl : Launchpad.State)
    (st : Staking.State) (sv : Services.State) (m : Marketplace.State) :
    (sl.isLoading = true → Launchpad.createButtonDisabled sl = true) ∧
    (st.isStaking = true → Staking.stakeButtonDisabled st = true) ∧
    (st.isUnstaking = true → Staking.unstakeButtonDisabled st = true) ∧
    (sv.isRegistering = true → Services.registerButtonDisabled sv = true) ∧
    (sv.isPaying = true → Services.payButtonDisabled sv = true) ∧
    Marketplace.listButtonDisabled m = false ∧
    Marketplace.buyButtonDisabled m = false := by
  refine ⟨?_, ?_, ?_, ?_, ?_, rfl, rfl⟩ <;> intro h <;>
    simp [Launchpad.createButtonDisabled, Staking.stakeButtonDisabled,
      Staking.unstakeButtonDisabled, Services.registerButtonDisabled,
      Services.payButtonDisabled, h]

/-- Witness for C3: with each in-flight flag set at concrete states,
the five flagged triggers are disabled, and the list trigger of the
marketplace is not disabled. -/
theorem C3_witness :
    Launchpad.createButtonDisabled { exampleCreateState with isLoading := true } = true ∧
    Staking.stakeButtonDisabled { exampleStakingState with isStaking := true } = true ∧
    Staking.unstakeButtonDisabled { exampleStakingState with isUnstaking := true } = true ∧
    Services.registerButtonDisabled { exampleServicesState with isRegistering := true } = true ∧
    Services.payButtonDisabled { exampleServicesState with isPaying := true } = true ∧
    Marketplace.listButtonDisabled pendingListState = false := by
  have h1 := C3_inflight_trigger_disabled_only_for_flagged_actions
    { exampleCreateState with isLoading := true }
    { exampleStakingState with isStaking := true }
    { exampleServicesState with isRegistering := true } pendingListState
  have h2 := C3_inflight_trigger_disabled_only_for_flagged_actions
    { exampleCreateState with isLoading := true }
    { exampleStakingState with isUnstaking := true }
    { exampleServicesState with isPaying := true } pendingListState
  exact ⟨h1.1 (by decide), h1.2.1 (by decide), h2.2.2.1 (by decide),
    h1.2.2.2.1 (by decide), h2.2.2.2.2.1 (by decide), h1.2.2.2.2.2.1⟩

/-- C4: evaluation of the listing handler at the failing input. The
marketplace price validator accepts the price string 1.5, but the
handler converts with parseInt, which truncates the fractional part
before the multiplication by 1000000, so the external list action
receives 1000000 microSTX instead of the 1500000 microSTX that the
entered display-unit amount denotes. -/
theorem C4_accepted_fractional_price_truncated :
    Marketplace.validatePrice "1.5" = (true, "") ∧
    (Marketplace.handleList fractionalPriceListState Settle.resolve).2 =
      some { tokenId := 1, priceMicroStx := 1000000 } ∧
    (1000000 : Int) ≠ 1500000 := by
  decide

/-- C5: the token-creation scenario. The inputs name My Token, symbol
MTK, decimals 6, supply 1000000 all pass validation, and the external
create action is invoked exactly with that name and symbol, decimals
6, and total supply 1000000 times 10 to the 6th. -/
theorem C5_token_creation_scenario :
    Launchpad.validateName "My Token" = (true, "") ∧
    Launchpad.validateSymbol "MTK" = (true, "") ∧
    Launchpad.validateDecimals "6" = (true, "") ∧
    Launchpad.validateSupply "1000000" = (true, "") ∧
    (Launchpad.handleCreate exampleCreateState Settle.resolve).2 =
      some { name := "My Token", symbol := "MTK", decimals := 6,
             totalSupply := 1000000 * 10 ^ 6 } := by
  decide

/-- C6 counterexample: the decimals validator rejects the empty string
with the shared parse-and-range message, the same message it yields
for the out-of-range value 19, and not a required error: the claim
that every field validator yields its required error on empty input
fails at the decimals validator. -/
theorem C6_decimals_empty_not_required_error :
    (Launchpad.validateDecimals "").1 = false ∧
    (Launchpad.validateDecimals "").2 = "Decimals must be between 0 and 18" ∧
    (Launchpad.validateDecimals "").2 = (Launchpad.validateDecimals "19").2 := by
  decide

/-- C6 amended: every field validator except the decimals validator
checks the required rule first on the trimmed value and yields its
required error, and no other, on an empty or whitespace-only input;
the decimals validator has no required check and yields its single
parse-and-range message on such input. -/
theorem C6_required_checked_first_except_decimals :
    (∀ s, jsTrim s = "" → Launchpad.validateName s = (false, "Token name is required")) ∧
    (∀ s, jsTrim s = "" → Launchpad.validateSymbol s = (false, "Symbol is required")) ∧
    (∀ s, jsTrim s = "" → Launchpad.validateSupply s = (false, "Supply is required")) ∧
    (∀ s, jsTrim s = "" → Marketplace.validateUri s = (false, "URI is required")) ∧
    (∀ s, jsTrim s = "" → Marketplace.validateTokenId s = (false, "Token ID is required")) ∧
    (∀ s, jsTrim s = "" → Marketplace.validatePrice s = (false, "Price is required")) ∧
    (∀ s, jsTrim s = "" → Staking.validateStakeAmount s = (false, "Amount is required")) ∧
    (∀ s, jsTrim s = "" → Staking.validateUnstakeAmount s = (false, "Amount is required")) ∧
    (∀ s, jsTrim s = "" → Services.validateTitle s = (false, "Service title is required")) ∧
    (∀ s, jsTrim s = "" → Services.validatePrice s = (false, "Price is required")) ∧
    (∀ s, jsTrim s = "" → Services.validateServiceId s = (false, "Service ID is required")) ∧
    Launchpad.validateDecimals "" = (false, "Decimals must be between 0 and 18") ∧
    Launchpad.validateDecimals " " = (false, "Decimals must be between 0 and 18") := by
  refine ⟨?_, ?_, ?_, ?_, ?_, ?_, ?_, ?_, ?_, ?_, ?_, by decide, by decide⟩ <;>
    intro s h <;>
    simp [Launchpad.validateName, Launchpad.validateSymbol, Launchpad.validateSupply,
      Marketplace.validateUri, Marketplace.validateTokenId, Marketplace.validatePrice,
      Staking.validateStakeAmount, Staking.validateUnstakeAmount, Services.validateTitle,
      Services.validatePrice, Services.validateServiceId, h]

/-- Witness for C6: every required-checking validator yields its
required error on a whitespace-only input. -/
theorem C6_witness :
    Launchpad.validateName "  " = (false, "Token name is required") ∧
    Launchpad.validateSymbol "  " = (false, "Symbol is required") ∧
    Launchpad.validateSupply "  " = (false, "Supply is required") ∧
    Marketplace.validateUri "  " = (false, "URI is required") ∧
    Marketplace.validateTokenId "  " = (false, "Token ID is required") ∧
    Marketplace.validatePrice "  " = (false, "Price is required") ∧
    Staking.validateStakeAmount "  " = (false, "Amount is required") ∧
    Staking.validateUnstakeAmount "  " = (false, "Amount is required") ∧
    Services.validateTitle "  " = (false, "Service title is required") ∧
    Services.validatePrice "  " = (false, "Price is required") ∧
    Services.validateServiceId "  " = (false, "Service ID is required") := by
  have h := C6_required_checked_first_except_decimals
  exact ⟨h.1 "  " (by decide), h.2.1 "  " (by decide), h.2.2.1 "  " (by decide),
    h.2.2.2.1 "  " (by decide), h.2.2.2.2.1 "  " (by decide),
    h.2.2.2.2.2.1 "  " (by decide), h.2.2.2.2.2.2.1 "  " (by decide),
    h.2.2.2.2.2.2.2.1 "  " (by decide), h.2.2.2.2.2.2.2.2.1 "  " (by decide),
    h.2.2.2.2.2.2.2.2.2.1 "  " (by decide), h.2.2.2.2.2.2.2.2.2.2.1 "  " (by decide)⟩

/-- C7 counterexample: a non-numeric decimals input fails with exactly
the same error message as a value that parses but is out of range, so
the two failures are not reported with distinct messages. -/
theorem C7_nonnumeric_message_equals_range_message :
    (Launchpad.validateDecimals "abc").1 = false ∧
    (Launchpad.validateDecimals "19").1 = false ∧
    (Launchpad.validateDecimals "abc").2 = (Launchpad.validateDecimals "19").2 := by
  decide

/-- C7 amended: for the decimals validator the inputs 0 and 18 pass
and the inputs -1 and 19 fail; non-numeric input also fails, but with
the same single message as the out-of-range case. -/
theorem C7_decimals_bounds_with_shared_message :
    Launchpad.validateDecimals "0" = (true, "") ∧
    Launchpad.validateDecimals "18" = (true, "") ∧
    (Launchpad.validateDecimals "-1").1 = false ∧
    (Launchpad.validateDecimals "19").1 = false ∧
    (Launchpad.validateDecimals "abc").1 = false ∧
    (Launchpad.validateDecimals "abc").2 = "Decimals must be between 0 and 18" ∧
    (Launchpad.validateDecimals "19").2 = "Decimals must be between 0 and 18" := by
  decide

/-- C8 counterexample: submitting the listing form with token ID -1
and price 0.0005 sets the non-negative-integer token-ID error but
leaves the price error empty, although the price validator, had it
run, would produce the below-minimum-price message: the second check
is short-circuited by the first failure. -/
theorem C8_price_error_not_set_when_token_id_fails :
    ((Marketplace.handleList doubleInvalidListState Settle.resolve).1).listTokenIdError =
      "Token ID must be a non-negative integer" ∧
    ((Marketplace.handleList doubleInvalidListState Settle.resolve).1).listPriceError = "" ∧
    (Marketplace.validatePrice "0.0005").2 = "Minimum price is 0.001 STX" := by
  decide

/-- C8 amended: with token ID -1 and price 0.0005 the submit sets only
the non-negative-integer token-ID error and aborts without running the
price validator, leaving the price error unset; the
below-minimum-price error is produced when the token ID passes, as
with token ID 1 and price 0.0005, and in both cases no external call
is made. -/
theorem C8_listing_validation_short_circuits :
    ((Marketplace.handleList doubleInvalidListState Settle.resolve).1).listTokenIdError =
      "Token ID must be a non-negative integer" ∧
    ((Marketplace.handleList doubleInvalidListState Settle.resolve).1).listPriceError = "" ∧
    (Marketplace.handleList doubleInvalidListState Settle.resolve).2 = none ∧
    ((Marketplace.handleList priceOnlyInvalidListState Settle.resolve).1).listPriceError =
      "Minimum price is 0.001 STX" ∧
    (Marketplace.handleList priceOnlyInvalidListState Settle.resolve).2 = none := by
  decide

/-- C9 counterexample: starting from the initial launchpad state, a
blur on the empty name field stores the required error; editing the
value to My Token, which the validator accepts, leaves that stored
error in place, so the displayed error is not what the validator
yields on the current value. -/
theorem C9_stale_error_after_accepting_edit :
    (Launchpad.setNameValue (Launchpad.blurName initialLaunchpadState) "My Token").nameError =
      "Token name is required" ∧
    Launchpad.validateName "My Token" = (true, "") := by
  decide

/-- C9 amended: a field error is recomputed from the current value
only when the field is validated, on blur or on submit; editing the
value stores the new value and leaves the previously stored error
unchanged, so a stale error can persist until the next blur or
submit. -/
theorem C9_error_recomputed_only_on_validation (s : Launchpad.State) (v : String) :
    (Launchpad.blurName s).nameError = (Launchpad.validateName s.name).2 ∧
    (Launchpad.setNameValue s v).nameError = s.nameError ∧
    (Launchpad.setNameValue s v).name = v :=
  ⟨rfl, rfl, rfl⟩

/-- C10: the token-name validator checks the required rule on the
trimmed value but the 2 to 32 length bound and the character pattern
on the raw value, so the input consisting of one letter and one space,
whose trimmed length 1 is below the stated minimum 2, is accepted. -/
theorem C10_name_rules_checked_on_raw_value :
    Launchpad.validateName "a " = (true, "") ∧
    jsTrim "a " = "a" ∧
    (jsTrim "a ").length < 2 ∧
    ("a ").length = 2 := by
  decide
